import Mathlib

/-!
# Verification of the ClinicalMatchMaker pipeline coordinator and scoring contract

Shallow embedding of the repository's pipeline orchestrator
(`src/lib/orchestrator.ts`), the agent-layer retry helper
(`src/unnamed/part_001`), the patient-advocate agent
(`src/agents/advocate/index.ts`), and the matcher agent's rule-based
scoring engine (the third document concatenated into `src/lib/stripe.ts`,
lines 652-1101).  JavaScript numbers that are used as exact integers are modelled as
`Nat`/`Int`; the overall-progress computation, which produces fractional
values before `Math.round`, is modelled over `ℚ`.  Wall-clock durations,
timestamps and the audio byte stream are not modelled.  Asynchronous adapter
calls are modelled as oracles recorded in an environment record: each oracle
value is the net outcome (success value or thrown error message) of the
corresponding awaited call.
-/

namespace ClinicalMatchMaker

/-! ## String utilities

`String.prototype.includes` is modelled by a character-list scan. -/

/-- `needle.isPrefixOf hay` on character lists, scanned over every suffix of
`hay`: Boolean model of JavaScript `hay.includes(needle)`. -/
def listContains (needle : List Char) : List Char → Bool
  | [] => needle.isEmpty
  | c :: rest => needle.isPrefixOf (c :: rest) || listContains needle rest

/-- JavaScript `hay.includes(needle)`. -/
def strIncludes (hay needle : String) : Bool :=
  listContains needle.data hay.data

/-- JavaScript `Math.round(a / b)` for natural `a` and positive natural `b`
(round half away from zero, which for nonnegative values is
`⌊a/b + 1/2⌋ = ⌊(2a+b)/(2b)⌋`). -/
def natRoundDiv (a b : Nat) : Nat :=
  (2 * a + b) / (2 * b)

/-! ## Data model (from `src/lib/schemas.ts`) -/

/-- `PipelineStepSchema.id` — `z.enum(['scout','extractor','matcher','advocate'])`. -/
inductive StepId where
  | scout
  | extractor
  | matcher
  | advocate
deriving DecidableEq, Repr

/-- `PipelineStepStatusSchema` — `z.enum(['pending','running','complete','error'])`. -/
inductive StepStatus where
  | pending
  | running
  | complete
  | error
deriving DecidableEq, Repr

/-- `PipelineStepSchema`. -/
structure PipelineStep where
  id : StepId
  name : String
  status : StepStatus
  progress : Option Nat
  error : Option String
deriving DecidableEq, Repr

/-- `LocationSchema`; the floating-point `distance` field is modelled as a
rational. -/
structure Location where
  facility : String
  city : String
  state : String
  zipcode : String
  distance : Option ℚ
deriving DecidableEq, Repr

/-- `TrialSchema`; the `phase` enum is modelled by its label string. -/
structure Trial where
  nctId : String
  title : String
  phase : String
  status : String
  sponsor : String
  conditions : List String
  interventions : List String
  locations : List Location
  url : String
deriving DecidableEq, Repr

/-- `CriteriaCategorySchema`. -/
inductive CriteriaCategory where
  | diagnosis
  | biomarker
  | treatment
  | demographics
  | other
deriving DecidableEq, Repr, Inhabited

/-- `CriterionSchema`. -/
structure Criterion where
  criterion : String
  category : CriteriaCategory
deriving DecidableEq, Repr, Inhabited

/-- `AgeRangeSchema`. -/
structure AgeRange where
  min : Nat
  max : Nat
deriving DecidableEq, Repr, Inhabited

/-- `EligibilitySchema`. -/
structure EligibilityCriteria where
  nctId : String
  inclusionCriteria : List Criterion
  exclusionCriteria : List Criterion
  ageRange : AgeRange
  acceptsHealthyVolunteers : Bool
  rawText : Option String
deriving DecidableEq, Repr, Inhabited

/-- `MatchCategorySchema`. -/
inductive MatchCategory where
  | strong_match
  | possible_match
  | future_potential
  | not_eligible
deriving DecidableEq, Repr, Inhabited

/-- `MatchingFactorSchema`. -/
structure MatchingFactor where
  factor : String
  weight : Nat
deriving DecidableEq, Repr, Inhabited

/-- `BlockingFactorSchema`. -/
structure BlockingFactor where
  factor : String
  reason : String
deriving DecidableEq, Repr, Inhabited

/-- `MatchResultSchema`; the score, an integer in [0,100], is a `Nat`. -/
structure MatchResult where
  nctId : String
  score : Nat
  category : MatchCategory
  matchingFactors : List MatchingFactor
  blockingFactors : List BlockingFactor
  uncertainFactors : List String
  summary : String
deriving DecidableEq, Repr, Inhabited

/-- `VoiceScriptSchema`; `duration` is the estimated whole number of seconds. -/
structure VoiceScript where
  text : String
  audioUrl : String
  duration : Nat
  language : String
deriving DecidableEq, Repr

/-- `PatientProfileSchema`; the stage and language enums are modelled by their
label strings. -/
structure PatientProfile where
  diagnosis : String
  stage : String
  biomarkers : List String
  ecogScore : Nat
  previousTreatments : List String
  zipcode : String
  travelRadiusMiles : Nat
  languagePreference : String
deriving DecidableEq, Repr

/-- `TrialDiscoveryOutputSchema` (the scout agent's output); the
`searchParams` record is not modelled. -/
structure TrialDiscoveryOutput where
  trials : List Trial
  totalFound : Nat
deriving DecidableEq, Repr

/-- `PipelineResultSchema`; the wall-clock `duration` field is not modelled. -/
structure PipelineResult where
  trials : List Trial
  matchResults : List MatchResult
  voiceScript : Option VoiceScript
  completedSteps : List PipelineStep
deriving DecidableEq, Repr

/-! ## Retry helpers

Two distinct retry wrappers exist in the source.  Both are modelled over an
operation given as the per-attempt outcome sequence `fn : Nat → Except String α`
(`fn k` is what the `k`-th attempt, 0-based, returns or throws); both return
the final outcome paired with the number of attempts actually made. -/

/-- `withRetry` from `src/lib/orchestrator.ts`: a `for` loop over
`attempt = 0 .. maxRetries` that retries on *every* error (no
classification), sleeping between attempts, and finally rethrows the last
error.  `rest` is the number of loop iterations remaining after the current
one. -/
def orchRetryGo (fn : Nat → Except String α) : Nat → Nat → Except String α × Nat
  | attempt, 0 =>
    match fn attempt with
    | .ok v => (.ok v, 1)
    | .error e => (.error e, 1)
  | attempt, rest + 1 =>
    match fn attempt with
    | .ok v => (.ok v, 1)
    | .error _ =>
      let r := orchRetryGo fn (attempt + 1) rest
      (r.1, r.2 + 1)

/-- `withRetry(fn, maxRetries, baseDelayMs)` from `src/lib/orchestrator.ts`
(attempts `maxRetries + 1` times; the backoff sleeps are timing-only and not
modelled). -/
def withRetryOrch (fn : Nat → Except String α) (maxRetries : Nat) :
    Except String α × Nat :=
  orchRetryGo fn 0 maxRetries

/-- Error classification from `src/unnamed/part_001` (`withRetry`): a thrown
message is retryable iff it contains `'rate limit'` or `'timeout'`. -/
def isRetryable (msg : String) : Bool :=
  strIncludes msg "rate limit" || strIncludes msg "timeout"

/-- Loop body of `withRetry` from `src/unnamed/part_001`: a `for` loop over
`attempt = 0 .. maxRetries - 1` that rethrows immediately when the error is
not retryable or the last allowed attempt failed. -/
def agentRetryGo (fn : Nat → Except String α) (maxRetries : Nat)
    (attempt : Nat) : Except String α × Nat :=
  if _h : attempt < maxRetries then
    match fn attempt with
    | .ok v => (.ok v, attempt + 1)
    | .error e =>
      if isRetryable e = false ∨ attempt = maxRetries - 1 then
        (.error e, attempt + 1)
      else
        agentRetryGo fn maxRetries (attempt + 1)
  else
    -- the fall-through `throw lastError` after the loop, reachable only when
    -- `maxRetries = 0` (JavaScript then throws `undefined`)
    (.error "undefined", attempt)
termination_by maxRetries - attempt

/-- `withRetry(fn, maxRetries, baseDelayMs)` from `src/unnamed/part_001`
(at most `maxRetries` attempts, immediate rethrow on fatal errors). -/
def withRetryAgent (fn : Nat → Except String α) (maxRetries : Nat) :
    Except String α × Nat :=
  agentRetryGo fn maxRetries 0

/-! ## Pipeline orchestrator (`src/lib/orchestrator.ts`, `runPipeline`)

The four awaited adapters are oracles in a `PipelineEnv`.  The
`AbortSignal` is modelled by `abort k`: the value of `abortSignal.aborted`
at the `k`-th dynamic execution of `checkAbort()` (0-based).  The run's
observable behaviour is collected in a `RunOutput`: the returned value or
thrown error message, the step snapshots passed to `onProgress` in order,
the log messages (without their timestamp prefix), and the orchestrator's
internal `completedSteps` array at the end of the run (after the `catch`
block pushed its error step on the throwing paths). -/

/-- The adapters as oracles.  Each field is the net outcome of the
corresponding `withRetry`-wrapped awaited call made by `runPipeline`. -/
structure PipelineEnv where
  scout : Except String TrialDiscoveryOutput
  extract : String → Except String EligibilityCriteria
  matcher : PatientProfile → String → EligibilityCriteria → Except String MatchResult
  advocate : PatientProfile → List MatchResult → Except String VoiceScript
  abort : Nat → Bool

/-- Observable behaviour of one `runPipeline` call. -/
structure RunOutput where
  outcome : Except String PipelineResult
  events : List PipelineStep
  log : List String
  finalSteps : List PipelineStep

/-- `PIPELINE_STEPS[id].name` from `src/lib/orchestrator.ts`. -/
def stepName : StepId → String
  | .scout => "Finding Trials"
  | .extractor => "Analyzing Eligibility"
  | .matcher => "Matching Your Profile"
  | .advocate => "Creating Summary"

/-- `createStep` from `src/lib/orchestrator.ts`. -/
def createStep (id : StepId) (status : StepStatus) (progress : Option Nat)
    (error : Option String) : PipelineStep :=
  { id := id, name := stepName id, status := status, progress := progress,
    error := error }

/-- The message of the error thrown by `checkAbort`. -/
def cancelMsg : String := "Pipeline cancelled by user"

/-- `PIPELINE_STEPS[n].id`, with the out-of-range fallback `'advocate'` used
by the `catch` block when every step already completed. -/
def stepIdAt : Nat → StepId
  | 0 => .scout
  | 1 => .extractor
  | 2 => .matcher
  | _ => .advocate

/-- The `catch` block of `runPipeline`: append an `error` step for the first
not-yet-completed stage, carrying the thrown message. -/
def catchSteps (steps : List PipelineStep) (msg : String) : List PipelineStep :=
  steps ++ [createStep (stepIdAt steps.length) .error none (some msg)]

/-- A throwing exit of `runPipeline`: the error propagates to the caller, the
`catch` block logs it and pushes the error step. -/
def failOutput (steps : List PipelineStep) (log : List PipelineStep → List String)
    (events : List PipelineStep) (msg : String) : RunOutput :=
  { outcome := .error msg,
    events := events,
    log := log (catchSteps steps msg) ++ ["Pipeline error: " ++ msg],
    finalSteps := catchSteps steps msg }

/-- Result of one batch-processing loop (`for (let i = ...; i += concurrency)`
with a leading `checkAbort()` per chunk): either every chunk settled, giving
the fulfilled values in input order, the per-item log lines, the per-chunk
progress events and the next `checkAbort` sequence number — or a chunk's
`checkAbort()` threw. -/
inductive LoopResult (α : Type) where
  | done (succ : List α) (log : List String) (events : List PipelineStep)
      (next : Nat)
  | aborted (log : List String) (events : List PipelineStep)
deriving DecidableEq, Repr

/-- One `Promise.allSettled` batch loop of `runPipeline` (used for both the
extractor and the matcher stage).  `chunk = max concurrency 1` item(s) are
settled per iteration (for `concurrency = 0` the JavaScript loop would never
terminate; the model is meaningful for `concurrency ≥ 1`), each item is
logged via `okMsg`/`errMsg`, and a `running` progress event with
`Math.round(((i + batch.length) / total) * 100)` is emitted after each
chunk. -/
def chunkLoop (abort : Nat → Bool) (concurrency : Nat)
    (op : Trial → Except String α) (okMsg : Trial → α → String)
    (errMsg : Trial → String → String) (stage : StepId) (total : Nat) :
    List Trial → Nat → Nat → LoopResult α
  | [], _, ctr => .done [] [] [] ctr
  | t :: ts, i, ctr =>
    if abort ctr then .aborted [] []
    else
      let chunk := max concurrency 1
      let batch := (t :: ts).take chunk
      let rest := ts.drop (chunk - 1)
      let succ := batch.filterMap (fun tr => (op tr).toOption)
      let lg := batch.map (fun tr =>
        match op tr with
        | .ok v => okMsg tr v
        | .error e => errMsg tr e)
      let ev := createStep stage .running
        (some (natRoundDiv ((i + batch.length) * 100) total)) none
      match chunkLoop abort concurrency op okMsg errMsg stage total rest
          (i + batch.length) (ctr + 1) with
      | .done s l e n => .done (succ ++ s) (lg ++ l) (ev :: e) n
      | .aborted l e => .aborted (lg ++ l) (ev :: e)
termination_by remaining => remaining.length
decreasing_by simp [List.length_drop]; omega

/-- The eligibility criteria the matcher stage reads back from
`eligibilityMap` (`eligibilityMap.get(trial.nctId)!`); the `default` branch
models the non-null assertion and is unreachable for trials that survived
extraction. -/
def criteriaOf (env : PipelineEnv) (t : Trial) : EligibilityCriteria :=
  match env.extract t.nctId with
  | .ok c => c
  | .error _ => default

/-- Per-item operation of the matcher stage. -/
def matchOp (env : PipelineEnv) (profile : PatientProfile) (t : Trial) :
    Except String MatchResult :=
  env.matcher profile t.nctId (criteriaOf env t)

/-- `matchCategory` label strings used in the log line. -/
def categoryLabel : MatchCategory → String
  | .strong_match => "strong_match"
  | .possible_match => "possible_match"
  | .future_potential => "future_potential"
  | .not_eligible => "not_eligible"

/-- Insertion step of the stable descending sort: keep walking past strictly
greater scores, so an inserted element lands before every element of equal
score that followed it in the input. -/
def insertByScore (x : MatchResult) : List MatchResult → List MatchResult
  | [] => [x]
  | y :: ys => if x.score < y.score then y :: insertByScore x ys else x :: y :: ys

/-- `matchResults.sort((a, b) => b.score - a.score)` — a stable sort by score
descending (JavaScript `Array.prototype.sort` is required to be stable). -/
def sortByScoreDesc : List MatchResult → List MatchResult
  | [] => []
  | x :: xs => insertByScore x (sortByScoreDesc xs)

/-- `runPipeline` from `src/lib/orchestrator.ts`, with
`options = { maxTrials, concurrency, abortSignal }` and the adapters drawn
from `env`. -/
def runPipeline (env : PipelineEnv) (profile : PatientProfile)
    (maxTrials concurrency : Nat) : RunOutput :=
  let ev0 := [createStep .scout .running none none]
  let log0 := ["Starting trial discovery..."]
  if env.abort 0 then failOutput [] (fun _ => log0) ev0 cancelMsg
  else
    match env.scout with
    | .error e => failOutput [] (fun _ => log0) ev0 e
    | .ok sr =>
      if sr.trials.length = 0 then
        { outcome := .ok
            { trials := [], matchResults := [], voiceScript := none,
              completedSteps :=
                [createStep .scout .complete none none,
                 createStep .extractor .complete none none,
                 createStep .matcher .complete none none,
                 createStep .advocate .complete none none] },
          events := ev0,
          log := log0 ++ ["No matching trials found"],
          finalSteps :=
            [createStep .scout .complete none none,
             createStep .extractor .complete none none,
             createStep .matcher .complete none none,
             createStep .advocate .complete none none] }
      else
        let processed := sr.trials.take maxTrials
        let steps1 := [createStep .scout .complete none none]
        let log1 := log0 ++
          ["Found " ++ toString sr.totalFound ++ " trials, processing top " ++
            toString processed.length,
           "Extracting eligibility criteria..."]
        let ev1 := ev0 ++
          [createStep .scout .complete none none,
           createStep .extractor .running (some 0) none]
        if env.abort 1 then failOutput steps1 (fun _ => log1) ev1 cancelMsg
        else
          match chunkLoop env.abort concurrency
              (fun t => env.extract t.nctId)
              (fun t _ => "Extracted criteria for " ++ t.nctId)
              (fun t e => "Failed to extract criteria for " ++ t.nctId ++ ": " ++ e)
              .extractor processed.length processed 0 2 with
          | .aborted llog lev =>
            failOutput steps1 (fun _ => log1 ++ llog) (ev1 ++ lev) cancelMsg
          | .done _ llog lev ctr =>
            let steps2 := steps1 ++ [createStep .extractor .complete none none]
            let log2 := log1 ++ llog
            let ev2 := ev1 ++ lev ++ [createStep .extractor .complete none none]
            let twc := processed.filter (fun t => (env.extract t.nctId).isOk)
            if twc.length = 0 then
              { outcome := .ok
                  { trials := processed, matchResults := [], voiceScript := none,
                    completedSteps := steps2 ++
                      [createStep .matcher .error none
                        (some "No criteria extracted")] },
                events := ev2,
                log := log2 ++ ["Could not extract criteria for any trials"],
                finalSteps := steps2 ++
                  [createStep .matcher .error none (some "No criteria extracted")] }
            else
              let log3 := log2 ++ ["Matching your profile against trials..."]
              let ev3 := ev2 ++ [createStep .matcher .running (some 0) none]
              if env.abort ctr then failOutput steps2 (fun _ => log3) ev3 cancelMsg
              else
                match chunkLoop env.abort concurrency (matchOp env profile)
                    (fun t r => "Matched " ++ t.nctId ++ ": " ++
                      categoryLabel r.category ++ " (" ++ toString r.score ++ ")")
                    (fun t e => "Failed to match " ++ t.nctId ++ ": " ++ e)
                    .matcher twc.length twc 0 (ctr + 1) with
                | .aborted mlog mev =>
                  failOutput steps2 (fun _ => log3 ++ mlog) (ev3 ++ mev) cancelMsg
                | .done succ mlog mev ctr2 =>
                  let sorted := sortByScoreDesc succ
                  let steps3 := steps2 ++ [createStep .matcher .complete none none]
                  let log4 := log3 ++ mlog ++
                    ["Creating your personalized summary..."]
                  let ev4 := ev3 ++ mev ++
                    [createStep .matcher .complete none none,
                     createStep .advocate .running none none]
                  if env.abort ctr2 then
                    failOutput steps3 (fun _ => log4) ev4 cancelMsg
                  else
                    let adv := env.advocate profile sorted
                    let vs := adv.toOption
                    let log5 := log4 ++
                      [match adv with
                       | .ok _ => "Voice summary created successfully"
                       | .error e => "Voice summary failed: " ++ toString e]
                    let steps4 := steps3 ++
                      [createStep .advocate .complete none none]
                    { outcome := .ok
                        { trials := twc, matchResults := sorted,
                          voiceScript := vs, completedSteps := steps4 },
                      events := ev4 ++ [createStep .advocate .complete none none],
                      log := log5,
                      finalSteps := steps4 }

/-- `getInitialSteps` from `src/lib/orchestrator.ts`. -/
def getInitialSteps : List PipelineStep :=
  [createStep .scout .pending none none,
   createStep .extractor .pending none none,
   createStep .matcher .pending none none,
   createStep .advocate .pending none none]

/-- The fixed stage weights of `calculateOverallProgress`. -/
def stageWeight : StepId → Nat
  | .scout => 15
  | .extractor => 35
  | .matcher => 35
  | .advocate => 15

/-- `calculateOverallProgress` from `src/lib/orchestrator.ts`: fold the
branches of the `for` loop over exact rationals, then `Math.round`. -/
def calculateOverallProgress (steps : List PipelineStep) : ℤ :=
  let total : ℚ := steps.foldl
    (fun acc step =>
      if step.status = .complete then acc + stageWeight step.id
      else
        match step.status, step.progress with
        | .running, some p => acc + (stageWeight step.id * p : ℚ) / 100
        | _, _ => acc) 0
  ⌊total + 1 / 2⌋

/-- The claim-side progress aggregate, stated from the spec's words for
comparison with `calculateOverallProgress`: Σ over stages of
stageWeight × stageCompletionFraction, where a complete stage contributes
fraction 1, a running stage contributes (reported intra-stage progress)/100
(0 when no progress has been reported), and every other stage contributes
0. -/
def specOverallProgress (steps : List PipelineStep) : ℚ :=
  (steps.map (fun step =>
    (stageWeight step.id : ℚ) *
      (if step.status = .complete then 1
       else if step.status = .running then (step.progress.getD 0 : ℚ) / 100
       else 0))).sum

/-! ## Patient advocate agent (`src/agents/advocate/index.ts`) -/

/-- `REQUIRED_DISCLAIMER` from `src/agents/advocate/index.ts`. -/
def REQUIRED_DISCLAIMER : String :=
  "This information is for educational purposes only and should not replace professional medical advice. " ++
  "Please discuss these options with your healthcare provider before making any decisions about clinical trial participation."

/-- `LANGUAGE_GREETINGS[language] || 'Hello'`. -/
def greetingFor (language : String) : String :=
  if language = "en" then "Hello"
  else if language = "es" then "Hola"
  else if language = "zh" then "你好"
  else if language = "fr" then "Bonjour"
  else if language = "de" then "Guten Tag"
  else "Hello"

/-- `getStrongMatchTemplate`; `topMatches[0]` is modelled by `headI` (the
function is only called on a non-empty list). -/
def getStrongMatchTemplate (topMatches : List MatchResult) (language : String) :
    String :=
  let greeting := greetingFor language
  let m := topMatches.headI
  greeting ++
  ".\x20I\x27ve found some promising clinical trial options that could be a good fit for you.\n\nThe top match is a trial that scores\x20" ++
  toString m.score ++ "\x20out of 100.\x20" ++ m.summary ++ "\n\n" ++
  (if 1 < topMatches.length then
    "I also found\x20" ++ toString (topMatches.length - 1) ++
    "\x20other strong matches worth discussing with your doctor."
   else "") ++
  "\n\nHere\x27s what I recommend as next steps: First, print or save these results.\x20Then, schedule a conversation with your oncologist or care team to review these options together.\x20They can help determine which trial, if any, might be right for your specific situation.\n\nRemember:\x20" ++
  REQUIRED_DISCLAIMER

/-- `getPossibleMatchTemplate`. -/
def getPossibleMatchTemplate (ms : List MatchResult) (language : String) :
    String :=
  let greeting := greetingFor language
  greeting ++
  ".\x20I\x27ve reviewed available clinical trials and found some possible options worth exploring.\n\nI found\x20" ++
  toString ms.length ++
  "\x20trials that could potentially be a fit for you.\x20While they\x27re not perfect matches, they\x27re worth discussing with your doctor.\x20Some details about your medical history would need to be confirmed to determine final eligibility.\n\nYour next step is to share these results with your healthcare team.\x20They know your complete medical history and can help identify which trials, if any, make sense to pursue.\n\n" ++
  REQUIRED_DISCLAIMER

/-- `getNoStrongMatchTemplate`. -/
def getNoStrongMatchTemplate (language : String) : String :=
  let greeting := greetingFor language
  greeting ++
  ".\x20I\x27ve searched through available clinical trials, and while I didn\x27t find a strong match right now, please don\x27t be discouraged.\n\nClinical trials are constantly opening and closing, and new options become available regularly.\x20Your situation may also change over time, which could open up new possibilities.\n\nHere\x27s what you can do: Talk to your doctor about other treatment options available to you.\x20You might also consider checking back in a few months, as new trials often open up.\n\nStay hopeful, and remember that you have a healthcare team supporting you through this journey.\n\n" ++
  REQUIRED_DISCLAIMER

/-- `generateScriptFromTemplate`. -/
def generateScriptFromTemplate (matchResults : List MatchResult)
    (language : String) : String :=
  let strongMatches := matchResults.filter (fun m => m.category = .strong_match)
  let possibleMatches :=
    matchResults.filter (fun m => m.category = .possible_match)
  if strongMatches.length ≠ 0 then getStrongMatchTemplate strongMatches language
  else if possibleMatches.length ≠ 0 then
    getPossibleMatchTemplate possibleMatches language
  else getNoStrongMatchTemplate language

/-- `SKIP_AUDIO_SYNTHESIS` from `src/agents/advocate/index.ts`. -/
def SKIP_AUDIO_SYNTHESIS : Bool := false

/-- `estimateDuration`: `Math.round((wordCount / 150) * 60)`.  The word count
of `text.split(/\s+/)` is modelled by splitting at whitespace and dropping
empty pieces (the JavaScript split can additionally produce one leading empty
string; the field is not used by any claim). -/
def estimateDuration (text : String) : Nat :=
  let wordCount :=
    ((text.split (fun c => c.isWhitespace)).filter (fun s => ¬s.isEmpty)).length
  natRoundDiv (wordCount * 60) 150

/-- `runAdvocateAgent` from `src/agents/advocate/index.ts`.  `audio` is the
oracle for the awaited ElevenLabs synthesis (`audioUrl`, `duration`); an
`error` value covers both a client-creation throw and a synthesis throw,
which share the same `catch`. -/
def runAdvocateAgent (matchResults : List MatchResult) (language : String)
    (audio : Except String (String × Nat)) : VoiceScript :=
  let scriptText0 := generateScriptFromTemplate matchResults language
  let scriptText :=
    if strIncludes scriptText0 "educational purposes only" then scriptText0
    else scriptText0 ++ "\n\n" ++ REQUIRED_DISCLAIMER
  if SKIP_AUDIO_SYNTHESIS then
    { text := scriptText, audioUrl := "",
      duration := estimateDuration scriptText, language := language }
  else
    match audio with
    | .ok (url, dur) =>
      { text := scriptText, audioUrl := url, duration := dur,
        language := language }
    | .error _ =>
      { text := scriptText, audioUrl := "",
        duration := estimateDuration scriptText, language := language }

/-! ## Scoring engine (matcher agent, `src/lib/stripe.ts` lines 652-1101)

The staged `src/lib/stripe.ts` concatenates several documents; its third
document is the matcher agent, whose rule-based ScoringEngine
(`matchWithRules`, `checkECOG`, `checkBiomarkers`, `checkTreatmentHistory`,
`calculateScore`, `generateSummary`) is embedded below.  With
`USE_RULES_ONLY = true` the exported `runMatcherAgent` always takes the
rule-based path.  JavaScript string operations are modelled over character
lists; `toLowerCase` and the regex character classes are modelled at ASCII
scope (`Char.toLower`, `Char.isDigit`, `Char.isWhitespace`), which matches
them on ASCII text. -/

/-- JavaScript `s.toLowerCase()` (ASCII scope). -/
def strLower (s : String) : String :=
  String.mk (s.data.map Char.toLower)

/-- JavaScript `s.slice(0, n)` (by characters). -/
def strTake (s : String) (n : Nat) : String :=
  String.mk (s.data.take n)

/-- JavaScript `s.split(' ')[0]` — the characters before the first space. -/
def firstWord (s : String) : String :=
  String.mk (s.data.takeWhile (fun c => c ≠ ' '))

/-- `normalize` from `checkBiomarkers`/`checkTreatmentHistory`
(`stripe.ts` line 750): `s.toLowerCase().replace(/[^a-z0-9]/g, '')`. -/
def jsNormalize (s : String) : String :=
  String.mk ((s.data.map Char.toLower).filter
    (fun c => ('a' ≤ c && c ≤ 'z') || ('0' ≤ c && c ≤ '9')))

/-- `CRITERIA_WEIGHTS` (`stripe.ts` lines 680-688). -/
def CRITERIA_WEIGHTS (k : String) : Nat :=
  if k = "diagnosis" then 10
  else if k = "biomarker" then 9
  else if k = "stage" then 8
  else if k = "ecog" then 7
  else if k = "treatment" then 6
  else if k = "demographics" then 5
  else if k = "other" then 3
  else 0

/-- The first element of a list of alternatives that produced a value —
used to model ordered regex alternation with backtracking. -/
def firstSome {α : Type} (l : List (Option α)) : Option α :=
  (l.filterMap id).head?

/-- One attempt of the regex
`/ecog\s*(?:ps|score)?\s*(?:of\s*)?(\d)(?:\s*-\s*(\d))?/i` at the head of
an (already lowercased) character list: literal `ecog`, optional `ps` or
`score`, optional `of`, a digit, and an optional `-digit` range, with the
optional groups backing off in regex order when the rest fails. -/
def ecogParseAt (cs : List Char) : Option (Nat × Nat) :=
  if cs.take 4 = ['e', 'c', 'o', 'g'] then
    let r1 := (cs.drop 4).dropWhile Char.isWhitespace
    let groupStarts : List (List Char) :=
      (if r1.take 2 = ['p', 's'] then [r1.drop 2] else []) ++
      (if r1.take 5 = ['s', 'c', 'o', 'r', 'e'] then [r1.drop 5] else []) ++
      [r1]
    firstSome (groupStarts.map (fun r =>
      let r2 := r.dropWhile Char.isWhitespace
      let ofStarts : List (List Char) :=
        (if r2.take 2 = ['o', 'f'] then
          [(r2.drop 2).dropWhile Char.isWhitespace]
         else []) ++ [r2]
      firstSome (ofStarts.map (fun r3 =>
        match r3 with
        | [] => none
        | d :: rest =>
          if d.isDigit then
            let d1 := d.toNat - 48
            let r4 := rest.dropWhile Char.isWhitespace
            match r4 with
            | '-' :: r5 =>
              match r5.dropWhile Char.isWhitespace with
              | d2 :: _ =>
                if d2.isDigit then some (d1, d2.toNat - 48) else some (d1, d1)
              | [] => some (d1, d1)
            | _ => some (d1, d1)
          else none))))
  else none

/-- `criterion.match(/ecog.../i)` — scan every start position for the first
successful match of `ecogParseAt`, returning the captured (min, max) ECOG
range. -/
def ecogScan : List Char → Option (Nat × Nat)
  | [] => none
  | c :: rest =>
    match ecogParseAt (c :: rest) with
    | some r => some r
    | none => ecogScan rest

/-- `/ecog|performance status/i.test(c.criterion)` (`stripe.ts` line 705). -/
def isEcogText (s : String) : Bool :=
  strIncludes (strLower s) "ecog" ||
  strIncludes (strLower s) "performance status"

/-- `checkECOG` (`stripe.ts` lines 697-729): find the first criterion in
inclusion then exclusion order mentioning ECOG / performance status, parse
its encoded range, and report a mismatch reason when the patient score
falls outside; `none` means `{ match: true }` (also when no such criterion
exists or the range cannot be parsed). -/
def checkECOG (patientECOG : Nat) (criteria : EligibilityCriteria) :
    Option String :=
  match (criteria.inclusionCriteria ++ criteria.exclusionCriteria).find?
      (fun c => isEcogText c.criterion) with
  | none => none
  | some c =>
    match ecogScan (strLower c.criterion).data with
    | none => none
    | some (minECOG, maxECOG) =>
      if minECOG ≤ patientECOG ∧ patientECOG ≤ maxECOG then none
      else
        some ("ECOG score " ++ toString patientECOG ++
          " outside required range (" ++ toString minECOG ++ "-" ++
          toString maxECOG ++ ")")

/-- Result record of `checkBiomarkers` (the source's `matches` field is
named `matched` here — `matches` is reserved in Lean). -/
structure BioCheck where
  matched : List String
  conflicts : List String
  uncertain : List String
deriving DecidableEq, Repr

/-- `checkBiomarkers` (`stripe.ts` lines 734-782): biomarker inclusion
criteria that overlap a normalized patient biomarker (substring in either
direction) are matches, the rest uncertain; overlapping biomarker exclusion
criteria are conflicts. -/
def checkBiomarkers (patientBiomarkers : List String)
    (criteria : EligibilityCriteria) : BioCheck :=
  let normalizedPatient := patientBiomarkers.map jsNormalize
  let overlaps := fun (c : Criterion) =>
    normalizedPatient.any (fun pb =>
      strIncludes (jsNormalize c.criterion) pb ||
      strIncludes pb (jsNormalize c.criterion))
  let bioInc := criteria.inclusionCriteria.filter
    (fun c => c.category = .biomarker)
  let bioExc := criteria.exclusionCriteria.filter
    (fun c => c.category = .biomarker)
  { matched := (bioInc.filter overlaps).map (fun c => c.criterion),
    conflicts := (bioExc.filter overlaps).map (fun c => c.criterion),
    uncertain :=
      (bioInc.filter (fun c => !overlaps c)).map (fun c => c.criterion) }

/-- Result record of `checkTreatmentHistory` (the source's `matches` field
is named `matched` here — `matches` is reserved in Lean). -/
structure TreatCheck where
  matched : List String
  conflicts : List String
deriving DecidableEq, Repr

/-- `/prior|previous|must have received/i.test(s)` (`stripe.ts` line 807). -/
def isPriorText (s : String) : Bool :=
  strIncludes (strLower s) "prior" ||
  strIncludes (strLower s) "previous" ||
  strIncludes (strLower s) "must have received"

/-- `checkTreatmentHistory` (`stripe.ts` lines 787-828): a treatment
inclusion criterion containing a prior-treatment keyword matches when some
normalized previous treatment occurs in its lowercased text (one
direction); a treatment exclusion criterion conflicts under the same
one-directional test. -/
def checkTreatmentHistory (previousTreatments : List String)
    (criteria : EligibilityCriteria) : TreatCheck :=
  let normalizedTreatments := previousTreatments.map jsNormalize
  let treatInc := criteria.inclusionCriteria.filter
    (fun c => c.category = .treatment)
  let treatExc := criteria.exclusionCriteria.filter
    (fun c => c.category = .treatment)
  { matched :=
      (treatInc.filter (fun c => isPriorText c.criterion &&
        normalizedTreatments.any
          (fun t => strIncludes (strLower c.criterion) t))).map
        (fun c => "Prior " ++ strTake c.criterion 50 ++ "..."),
    conflicts :=
      (treatExc.filter (fun c => normalizedTreatments.any
          (fun t => strIncludes (strLower c.criterion) t))).map
        (fun c => "Excluded: " ++ strTake c.criterion 50 ++ "...") }

/-- The diagnosis check of `matchWithRules` (`stripe.ts` lines 1026-1044):
with at least one diagnosis inclusion criterion, a single weight-10
matching factor is added when some criterion text contains the lowercased
diagnosis or the diagnosis contains the criterion text's first word;
otherwise one uncertain factor is added.  Returns (matching factors,
uncertain factors). -/
def diagnosisCheck (profile : PatientProfile)
    (criteria : EligibilityCriteria) : List MatchingFactor × List String :=
  let diagnosisCriteria := criteria.inclusionCriteria.filter
    (fun c => c.category = .diagnosis)
  if 0 < diagnosisCriteria.length then
    let diagnosisLower := strLower profile.diagnosis
    if diagnosisCriteria.any (fun c =>
        strIncludes (strLower c.criterion) diagnosisLower ||
        strIncludes diagnosisLower (firstWord (strLower c.criterion))) then
      ([{ factor := "Diagnosis matches trial requirements",
          weight := CRITERIA_WEIGHTS "diagnosis" }], [])
    else ([], ["Diagnosis alignment needs confirmation"])
  else ([], [])

/-- `calculateScore` (`stripe.ts` lines 837-871): any blocking factor caps
the outcome at `not_eligible` with score `max(0, 20 − count·10)`; otherwise
the weighted score is `round(100·totalWeight/48) − 5·uncertainCount`
clamped to [0, 100] and mapped through the 75/50/25 thresholds. -/
def calculateScore (matchingFactors : List MatchingFactor)
    (blockingFactors : List BlockingFactor)
    (uncertainFactors : List String) : Nat × MatchCategory :=
  if 0 < blockingFactors.length then
    ((max 0 (20 - (blockingFactors.length : ℤ) * 10)).toNat, .not_eligible)
  else
    let totalWeight := (matchingFactors.map (fun f => f.weight)).sum
    let maxPossibleWeight := 10 + 9 + 8 + 7 + 6 + 5 + 3
    let uncertaintyPenalty := uncertainFactors.length * 5
    let score :=
      (max 0 (min 100 ((natRoundDiv (totalWeight * 100) maxPossibleWeight : ℤ) -
        uncertaintyPenalty))).toNat
    (score,
      if 75 ≤ score then .strong_match
      else if 50 ≤ score then .possible_match
      else if 25 ≤ score then .future_potential
      else .not_eligible)

/-- `generateSummary` (`stripe.ts` lines 880-901). -/
def generateSummary (category : MatchCategory)
    (matchingFactors : List MatchingFactor)
    (blockingFactors : List BlockingFactor) : String :=
  if category = .not_eligible ∧ 0 < blockingFactors.length then
    "This trial may not be a good fit right now.\x20" ++
    (blockingFactors.headI).reason ++
    ".\x20Consider discussing alternative options with your doctor."
  else if category = .strong_match then
    let topFactor :=
      match matchingFactors with
      | [] => "your profile"
      | f :: _ => f.factor
    "This trial looks like a strong match for you.\x20" ++ topFactor ++
    "\x20aligns well with what the trial is looking for.\x20Talk to your doctor about whether this could be a good option."
  else if category = .possible_match then
    "This trial could potentially be a fit for you.\x20Some of your information matches what they\x27re looking for, but a few details would need to be confirmed.\x20Your doctor can help determine if you qualify."
  else
    "This trial might become an option in the future.\x20Right now, there are some differences between your situation and what the trial requires.\x20Your doctor can explain more about what might need to change."

/-- The blocking-factor list built by `matchWithRules` (`stripe.ts` lines
974-1023): an ECOG mismatch, then biomarker conflicts, then treatment
conflicts, in push order. -/
def matchBlockers (profile : PatientProfile)
    (criteria : EligibilityCriteria) : List BlockingFactor :=
  (match checkECOG profile.ecogScore criteria with
   | none => []
   | some reason => [{ factor := "ECOG Score", reason := reason }]) ++
  (checkBiomarkers profile.biomarkers criteria).conflicts.map
    (fun c => { factor := "Biomarker", reason := c }) ++
  (checkTreatmentHistory profile.previousTreatments criteria).conflicts.map
    (fun c => { factor := "Treatment History", reason := c })

/-- The matching-factor list built by `matchWithRules`: the ECOG factor
when no mismatch was found, then biomarker matches, treatment matches and
the diagnosis factor, in push order. -/
def matchFactors (profile : PatientProfile)
    (criteria : EligibilityCriteria) : List MatchingFactor :=
  (match checkECOG profile.ecogScore criteria with
   | none =>
     [{ factor := "ECOG score " ++ toString profile.ecogScore ++
          " meets requirements",
        weight := CRITERIA_WEIGHTS "ecog" }]
   | some _ => []) ++
  (checkBiomarkers profile.biomarkers criteria).matched.map
    (fun m => { factor := "Biomarker match: " ++ strTake m 40,
                weight := CRITERIA_WEIGHTS "biomarker" }) ++
  (checkTreatmentHistory profile.previousTreatments criteria).matched.map
    (fun m => { factor := m, weight := CRITERIA_WEIGHTS "treatment" }) ++
  (diagnosisCheck profile criteria).1

/-- The uncertain-factor list built by `matchWithRules`: truncated
biomarker uncertainties, then the diagnosis uncertainty. -/
def matchUncertain (profile : PatientProfile)
    (criteria : EligibilityCriteria) : List String :=
  (checkBiomarkers profile.biomarkers criteria).uncertain.map
    (fun u => strTake u 50) ++
  (diagnosisCheck profile criteria).2

/-- `matchWithRules` (`stripe.ts` lines 968-1065). -/
def matchWithRules (profile : PatientProfile)
    (criteria : EligibilityCriteria) (nctId : String) : MatchResult :=
  let matchingFactors := matchFactors profile criteria
  let blockingFactors := matchBlockers profile criteria
  let uncertainFactors := matchUncertain profile criteria
  let sc := calculateScore matchingFactors blockingFactors uncertainFactors
  { nctId := nctId, score := sc.1, category := sc.2,
    matchingFactors := matchingFactors,
    blockingFactors := blockingFactors,
    uncertainFactors := uncertainFactors,
    summary := generateSummary sc.2 matchingFactors blockingFactors }

/-- `USE_RULES_ONLY` (`stripe.ts` line 908). -/
def USE_RULES_ONLY : Bool := true

/-- `runMatcherAgent` (`stripe.ts` lines 914-937): with
`USE_RULES_ONLY = true` the LLM branch is skipped and the rule-based
matcher is the whole behaviour (the processing delay is timing-only). -/
def runMatcherAgent (profile : PatientProfile)
    (criteria : EligibilityCriteria) (nctId : String) : MatchResult :=
  matchWithRules profile criteria nctId


/-! ## Derived views of a pipeline run -/

/-- The truncated candidate list the Extraction stage processes
(`scoutResult.trials.slice(0, maxTrials)`), read off from the environment. -/
def processedTrials (env : PipelineEnv) (maxTrials : Nat) : List Trial :=
  match env.scout with
  | .ok sr => sr.trials.take maxTrials
  | .error _ => []

/-- The extraction-surviving candidates
(`trials.filter(t => eligibilityMap.has(t.nctId))`). -/
def survivingTrials (env : PipelineEnv) (maxTrials : Nat) : List Trial :=
  (processedTrials env maxTrials).filter (fun t => (env.extract t.nctId).isOk)

/-- The successful match outcomes in Discovery order, before sorting. -/
def discoveryMatches (env : PipelineEnv) (profile : PatientProfile)
    (maxTrials : Nat) : List MatchResult :=
  (survivingTrials env maxTrials).filterMap
    (fun t => (matchOp env profile t).toOption)

/-- The log line recorded for the Summarization attempt. -/
def advocateLogMsg (env : PipelineEnv) (profile : PatientProfile)
    (maxTrials : Nat) : String :=
  match env.advocate profile (sortByScoreDesc (discoveryMatches env profile maxTrials)) with
  | .ok _ => "Voice summary created successfully"
  | .error e => "Voice summary failed: " ++ e


/-! ## Concrete fixtures for witness runs -/

/-- A minimal recruiting trial used by concrete witness runs. -/
def mkTrial (id : String) : Trial :=
  { nctId := id, title := "Trial " ++ id, phase := "Phase 2",
    status := "Recruiting", sponsor := "Sponsor",
    conditions := ["non-small cell lung cancer"], interventions := ["drug"],
    locations := [], url := "https://clinicaltrials.gov/study/" ++ id }

/-- A concrete patient profile used by concrete witness runs. -/
def cProfile : PatientProfile :=
  { diagnosis := "non-small cell lung cancer", stage := "III",
    biomarkers := ["EGFR mutation"], ecogScore := 1,
    previousTreatments := ["chemotherapy"], zipcode := "94105",
    travelRadiusMiles := 50, languagePreference := "en" }

/-- A fixed eligibility record for concrete witness runs. -/
def mkCriteria (id : String) : EligibilityCriteria :=
  { nctId := id,
    inclusionCriteria :=
      [{ criterion := "Diagnosis of non-small cell lung cancer",
         category := .diagnosis }],
    exclusionCriteria := [],
    ageRange := { min := 18, max := 99 }, acceptsHealthyVolunteers := false,
    rawText := none }

/-- A match result with a given score for concrete witness runs. -/
def mkResult (id : String) (score : Nat) : MatchResult :=
  { nctId := id, score := score, category := .possible_match,
    matchingFactors := [], blockingFactors := [], uncertainFactors := [],
    summary := "Summary" }

/-- A voice script fixture. -/
def cScript : VoiceScript :=
  { text := "script", audioUrl := "", duration := 60, language := "en" }

/-- Witness environment: two discovered candidates, one failing extraction. -/
def cEnv1 : PipelineEnv :=
  { scout := .ok
      { trials := [mkTrial "NCT00000001", mkTrial "NCT00000002"],
        totalFound := 2 },
    extract := fun id =>
      if id = "NCT00000001" then .ok (mkCriteria id) else .error "not found",
    matcher := fun _ id _ => .ok (mkResult id 80),
    advocate := fun _ _ => .ok cScript,
    abort := fun _ => false }

/-- The result of the witness run on `cEnv1`. -/
def cRes1 : PipelineResult :=
  { trials := survivingTrials cEnv1 5,
    matchResults := sortByScoreDesc (discoveryMatches cEnv1 cProfile 5),
    voiceScript :=
      (cEnv1.advocate cProfile
        (sortByScoreDesc (discoveryMatches cEnv1 cProfile 5))).toOption,
    completedSteps :=
      [createStep .scout .complete none none,
       createStep .extractor .complete none none,
       createStep .matcher .complete none none,
       createStep .advocate .complete none none] }

/-- Counterexample environment: a single candidate whose extraction fails. -/
def cEnv1x : PipelineEnv :=
  { scout := .ok { trials := [mkTrial "NCT00000001"], totalFound := 1 },
    extract := fun _ => .error "not found",
    matcher := fun _ id _ => .ok (mkResult id 80),
    advocate := fun _ _ => .ok cScript,
    abort := fun _ => false }

/-- Witness operation for the retry contract: a retryable timeout followed by
a fatal error. -/
def wfn : Nat → Except String Nat :=
  fun k =>
    if k = 0 then .error "timeout while connecting"
    else .error "schema mismatch"

/-- Witness environment: Discovery succeeds with zero candidates. -/
def cEnv3 : PipelineEnv :=
  { scout := .ok { trials := [], totalFound := 0 },
    extract := fun _ => .error "unused",
    matcher := fun _ _ _ => .error "unused",
    advocate := fun _ _ => .error "unused",
    abort := fun _ => false }

/-- Environment whose abort signal becomes set right after Discovery: false
at the first `checkAbort`, true from the second on. -/
def cEnv4 : PipelineEnv :=
  { scout := .ok { trials := [mkTrial "NCT00000001"], totalFound := 1 },
    extract := fun id => .ok (mkCriteria id),
    matcher := fun _ id _ => .ok (mkResult id 80),
    advocate := fun _ _ => .ok cScript,
    abort := fun k => decide (1 ≤ k) }

/-- Witness environment: two candidates, both failing extraction. -/
def cEnv5 : PipelineEnv :=
  { scout := .ok
      { trials := [mkTrial "NCT00000001", mkTrial "NCT00000002"],
        totalFound := 2 },
    extract := fun _ => .error "rate limit exceeded",
    matcher := fun _ id _ => .ok (mkResult id 80),
    advocate := fun _ _ => .ok cScript,
    abort := fun _ => false }

/-- Witness environment: one candidate, Summarization throwing. -/
def cEnv6 : PipelineEnv :=
  { scout := .ok { trials := [mkTrial "NCT00000001"], totalFound := 1 },
    extract := fun id => .ok (mkCriteria id),
    matcher := fun _ id _ => .ok (mkResult id 80),
    advocate := fun _ _ => .error "synthesis failed",
    abort := fun _ => false }

/-- Witness environment: three candidates with scores 50, 80, 50 (a tie). -/
def cEnv7 : PipelineEnv :=
  { scout := .ok
      { trials := [mkTrial "NCT00000001", mkTrial "NCT00000002",
          mkTrial "NCT00000003"],
        totalFound := 3 },
    extract := fun id => .ok (mkCriteria id),
    matcher := fun _ id _ =>
      .ok (mkResult id (if id = "NCT00000002" then 80 else 50)),
    advocate := fun _ _ => .ok cScript,
    abort := fun _ => false }

/-- The result of the witness run on `cEnv7`. -/
def cRes7 : PipelineResult :=
  { trials := survivingTrials cEnv7 5,
    matchResults := sortByScoreDesc (discoveryMatches cEnv7 cProfile 5),
    voiceScript :=
      (cEnv7.advocate cProfile
        (sortByScoreDesc (discoveryMatches cEnv7 cProfile 5))).toOption,
    completedSteps :=
      [createStep .scout .complete none none,
       createStep .extractor .complete none none,
       createStep .matcher .complete none none,
       createStep .advocate .complete none none] }

/-- Step states for the progress counterexample: Discovery complete,
Extraction running at 50%, the rest pending. -/
def c8steps : List PipelineStep :=
  [createStep .scout .complete none none,
   createStep .extractor .running (some 50) none,
   createStep .matcher .pending none none,
   createStep .advocate .pending none none]

/-- Witness criteria: one biomarker exclusion matching the profile, plus
inclusion criteria that match it as well. -/
def cCriteria9 : EligibilityCriteria :=
  { nctId := "NCT11112222",
    inclusionCriteria :=
      [{ criterion := "Histologically confirmed non-small cell lung cancer",
         category := .diagnosis },
       { criterion := "Prior chemotherapy allowed", category := .treatment }],
    exclusionCriteria :=
      [{ criterion := "Known EGFR mutation", category := .biomarker }],
    ageRange := { min := 18, max := 99 }, acceptsHealthyVolunteers := false,
    rawText := none }

/-! ## Lemmas about the stable sort -/
/-- The rule-based matcher reports its outcome under the queried candidate
identifier — this discharges the matcher-contract hypothesis of the C1
amendment for the real adapter. -/
theorem matchWithRules_nctId (profile : PatientProfile)
    (criteria : EligibilityCriteria) (nctId : String) :
    (matchWithRules profile criteria nctId).nctId = nctId :=
  rfl


theorem mem_insertByScore {a x : MatchResult} {l : List MatchResult} :
    a ∈ insertByScore x l ↔ a = x ∨ a ∈ l := by
  induction l with
  | nil => simp [insertByScore]
  | cons y ys ih =>
    by_cases h : x.score < y.score <;> simp [insertByScore, h, ih] <;> tauto

theorem mem_sortByScoreDesc {a : MatchResult} {l : List MatchResult} :
    a ∈ sortByScoreDesc l ↔ a ∈ l := by
  induction l with
  | nil => simp [sortByScoreDesc]
  | cons x xs ih => simp [sortByScoreDesc, mem_insertByScore, ih]

theorem insertByScore_sorted (x : MatchResult) {l : List MatchResult}
    (h : l.Sorted (fun a b => b.score ≤ a.score)) :
    (insertByScore x l).Sorted (fun a b => b.score ≤ a.score) := by
  induction l with
  | nil => simp [insertByScore]
  | cons y ys ih =>
    rw [List.sorted_cons] at h
    by_cases hxy : x.score < y.score
    · rw [insertByScore, if_pos hxy, List.sorted_cons]
      refine ⟨fun z hz => ?_, ih h.2⟩
      rcases mem_insertByScore.mp hz with rfl | hz
      · exact Nat.le_of_lt hxy
      · exact h.1 z hz
    · rw [insertByScore, if_neg hxy, List.sorted_cons]
      refine ⟨fun z hz => ?_, List.sorted_cons.mpr h⟩
      rcases List.mem_cons.mp hz with rfl | hz
      · exact Nat.le_of_not_lt hxy
      · exact Nat.le_trans (h.1 z hz) (Nat.le_of_not_lt hxy)

theorem sortByScoreDesc_sorted (l : List MatchResult) :
    (sortByScoreDesc l).Sorted (fun a b => b.score ≤ a.score) := by
  induction l with
  | nil => simp [sortByScoreDesc]
  | cons x xs ih => exact insertByScore_sorted x ih

theorem filter_insertByScore_pos {x : MatchResult} {s : Nat} (hx : x.score = s)
    (l : List MatchResult) :
    (insertByScore x l).filter (fun r => r.score == s) =
      x :: l.filter (fun r => r.score == s) := by
  induction l with
  | nil => simp [insertByScore, List.filter, hx]
  | cons y ys ih =>
    by_cases hxy : x.score < y.score
    · have hy : (y.score == s) = false := by
        simp only [beq_eq_false_iff_ne]
        omega
      rw [insertByScore, if_pos hxy]
      simp only [List.filter, hy]
      exact ih
    · rw [insertByScore, if_neg hxy]
      simp [List.filter, hx]

theorem filter_insertByScore_neg {x : MatchResult} {s : Nat} (hx : x.score ≠ s)
    (l : List MatchResult) :
    (insertByScore x l).filter (fun r => r.score == s) =
      l.filter (fun r => r.score == s) := by
  have hxb : (x.score == s) = false := by simpa using hx
  induction l with
  | nil => simp [insertByScore, List.filter, hxb]
  | cons y ys ih =>
    by_cases hxy : x.score < y.score
    · rw [insertByScore, if_pos hxy]
      simp only [List.filter]
      rw [ih]
    · rw [insertByScore, if_neg hxy]
      simp only [List.filter, hxb]

/-- Stability of the sort: for every score value, the sublist of results with
that score is preserved verbatim (hence in the original order). -/
theorem filter_sortByScoreDesc (l : List MatchResult) (s : Nat) :
    (sortByScoreDesc l).filter (fun r => r.score == s) =
      l.filter (fun r => r.score == s) := by
  induction l with
  | nil => simp [sortByScoreDesc]
  | cons x xs ih =>
    by_cases hx : x.score = s
    · rw [sortByScoreDesc, filter_insertByScore_pos hx, ih]
      have hxb : (x.score == s) = true := by simpa using hx
      simp [List.filter, hxb]
    · rw [sortByScoreDesc, filter_insertByScore_neg hx, ih]
      have hxb : (x.score == s) = false := by simpa using hx
      simp [List.filter, hxb]

/-! ## Lemmas about the batch loop -/

/-- When the abort signal is never set, every chunk settles and the fulfilled
values are exactly the successful per-item outcomes in input order. -/
theorem chunkLoop_no_abort {α : Type} (abort : Nat → Bool)
    (h : ∀ k, abort k = false) (c : Nat) (op : Trial → Except String α)
    (okMsg : Trial → α → String) (errMsg : Trial → String → String)
    (stage : StepId) (total : Nat) :
    ∀ (n : Nat) (remaining : List Trial), remaining.length ≤ n →
      ∀ (i ctr : Nat), ∃ lg ev nxt,
        chunkLoop abort c op okMsg errMsg stage total remaining i ctr =
          .done (remaining.filterMap (fun t => (op t).toOption)) lg ev nxt := by
  intro n
  induction n with
  | zero =>
    intro remaining hlen i ctr
    have : remaining = [] := List.eq_nil_of_length_eq_zero (Nat.le_zero.mp hlen)
    subst this
    exact ⟨[], [], ctr, by rw [chunkLoop]; simp⟩
  | succ n ih =>
    intro remaining hlen i ctr
    match remaining with
    | [] => exact ⟨[], [], ctr, by rw [chunkLoop]; simp⟩
    | t :: ts =>
      have hrest : (ts.drop (max c 1 - 1)).length ≤ n := by
        have := List.length_drop (max c 1 - 1) ts
        simp only [List.length_cons] at hlen
        omega
      obtain ⟨lg, ev, nxt, heq⟩ :=
        ih (ts.drop (max c 1 - 1)) hrest (i + ((t :: ts).take (max c 1)).length)
          (ctr + 1)
      have hsplit : (t :: ts).take (max c 1) ++ ts.drop (max c 1 - 1) = t :: ts := by
        have hmax : max c 1 = (max c 1 - 1) + 1 := by omega
        rw [hmax]
        simp only [List.take_succ_cons, List.cons_append, List.cons.injEq,
          true_and]
        exact List.take_append_drop _ ts
      have hfm : List.filterMap (fun t => (op t).toOption) (t :: ts) =
          List.filterMap (fun t => (op t).toOption) ((t :: ts).take (max c 1)) ++
            List.filterMap (fun t => (op t).toOption) (ts.drop (max c 1 - 1)) := by
        conv_lhs => rw [← hsplit]
        rw [List.filterMap_append]
      rw [chunkLoop, h ctr]
      simp only [Bool.false_eq_true, if_false, heq, hfm]
      exact ⟨_, _, nxt, rfl⟩

/-- Master lemma for the full (non-short-circuited) success path: no
cancellation, Discovery succeeds with at least one candidate, and at least
one candidate survives extraction. -/
theorem runPipeline_normal (env : PipelineEnv) (profile : PatientProfile)
    (mt c : Nat) (hab : ∀ k, env.abort k = false)
    (sr : TrialDiscoveryOutput) (hs : env.scout = .ok sr)
    (hne : sr.trials.length ≠ 0)
    (htwc : (survivingTrials env mt).length ≠ 0) :
    (runPipeline env profile mt c).outcome = .ok
      { trials := survivingTrials env mt,
        matchResults := sortByScoreDesc (discoveryMatches env profile mt),
        voiceScript :=
          (env.advocate profile
            (sortByScoreDesc (discoveryMatches env profile mt))).toOption,
        completedSteps :=
          [createStep .scout .complete none none,
           createStep .extractor .complete none none,
           createStep .matcher .complete none none,
           createStep .advocate .complete none none] } ∧
      advocateLogMsg env profile mt ∈ (runPipeline env profile mt c).log := by
  have hsurv : survivingTrials env mt =
      (sr.trials.take mt).filter (fun t => (env.extract t.nctId).isOk) := by
    rw [survivingTrials, processedTrials, hs]
  obtain ⟨lg₁, ev₁, ctr₁, hloop₁⟩ :=
    chunkLoop_no_abort env.abort hab c (fun t => env.extract t.nctId)
      (fun t _ => "Extracted criteria for " ++ t.nctId)
      (fun t e => "Failed to extract criteria for " ++ t.nctId ++ ": " ++ e)
      .extractor (sr.trials.take mt).length (sr.trials.take mt).length
      (sr.trials.take mt) (Nat.le_refl _) 0 2
  obtain ⟨lg₂, ev₂, ctr₂, hloop₂⟩ :=
    chunkLoop_no_abort env.abort hab c (matchOp env profile)
      (fun t r => "Matched " ++ t.nctId ++ ": " ++
        categoryLabel r.category ++ " (" ++ toString r.score ++ ")")
      (fun t e => "Failed to match " ++ t.nctId ++ ": " ++ e)
      .matcher (survivingTrials env mt).length (survivingTrials env mt).length
      (survivingTrials env mt) (Nat.le_refl _) 0 (ctr₁ + 1)
  rw [hsurv] at hloop₂ htwc
  rw [runPipeline, hab 0]
  simp only [Bool.false_eq_true, if_false, hs]
  simp only [if_neg hne, hab 1, Bool.false_eq_true, if_false, hloop₁,
    if_neg htwc, hab ctr₁, hloop₂, hab ctr₂]
  constructor
  · simp [hsurv, discoveryMatches]
  · rw [advocateLogMsg, discoveryMatches, hsurv]
    simp
    tauto

/-- If a batch loop ran to completion (no chunk observed the abort signal),
its fulfilled values are exactly the successful per-item outcomes in input
order. -/
theorem chunkLoop_done_succ {α : Type} (abort : Nat → Bool) (c : Nat)
    (op : Trial → Except String α) (okMsg : Trial → α → String)
    (errMsg : Trial → String → String) (stage : StepId) (total : Nat) :
    ∀ (n : Nat) (remaining : List Trial), remaining.length ≤ n →
      ∀ (i ctr : Nat) (succ : List α) (lg : List String)
        (ev : List PipelineStep) (nxt : Nat),
        chunkLoop abort c op okMsg errMsg stage total remaining i ctr =
          .done succ lg ev nxt →
        succ = remaining.filterMap (fun t => (op t).toOption) := by
  intro n
  induction n with
  | zero =>
    intro remaining hlen i ctr succ lg ev nxt h
    have : remaining = [] := List.eq_nil_of_length_eq_zero (Nat.le_zero.mp hlen)
    subst this
    rw [chunkLoop] at h
    simp only [LoopResult.done.injEq] at h
    simp [h.1]
  | succ n ih =>
    intro remaining hlen i ctr succ lg ev nxt h
    match remaining with
    | [] =>
      rw [chunkLoop] at h
      simp only [LoopResult.done.injEq] at h
      simp [h.1]
    | t :: ts =>
      rw [chunkLoop] at h
      by_cases habort : abort ctr = true
      · rw [if_pos habort] at h
        exact absurd h (by simp)
      · rw [if_neg habort] at h
        simp only [] at h
        have hrest : (ts.drop (max c 1 - 1)).length ≤ n := by
          have := List.length_drop (max c 1 - 1) ts
          simp only [List.length_cons] at hlen
          omega
        rcases hrec : chunkLoop abort c op okMsg errMsg stage total
            (ts.drop (max c 1 - 1)) (i + ((t :: ts).take (max c 1)).length)
            (ctr + 1) with ⟨s', l', e', n'⟩ | ⟨l', e'⟩
        · rw [hrec] at h
          simp only [LoopResult.done.injEq] at h
          have hs' := ih (ts.drop (max c 1 - 1)) hrest _ _ s' l' e' n' hrec
          have hsplit : (t :: ts).take (max c 1) ++ ts.drop (max c 1 - 1) =
              t :: ts := by
            have hmax : max c 1 = (max c 1 - 1) + 1 := by omega
            rw [hmax]
            simp only [List.take_succ_cons, List.cons_append, List.cons.injEq,
              true_and]
            exact List.take_append_drop _ ts
          rw [← h.1, hs']
          conv_rhs => rw [← hsplit]
          rw [List.filterMap_append]
        · rw [hrec] at h
          exact absurd h (by simp)

/-- Inversion for every successful run: the returned match outcomes are the
stable descending sort of the Discovery-ordered successful match outcomes,
and the returned candidate list is the extraction-surviving list — except on
the stage-exhaustion path (no candidate survived extraction), where the
truncated raw candidate list is returned instead. -/
theorem runPipeline_ok_inv (env : PipelineEnv) (profile : PatientProfile)
    (mt c : Nat) (res : PipelineResult)
    (h : (runPipeline env profile mt c).outcome = .ok res) :
    res.matchResults = sortByScoreDesc (discoveryMatches env profile mt) ∧
    (res.trials = survivingTrials env mt ∨
      (res.trials = processedTrials env mt ∧ survivingTrials env mt = [])) := by
  rw [runPipeline] at h
  by_cases h0 : env.abort 0 = true
  · rw [if_pos h0] at h
    exact absurd h (by simp [failOutput])
  rw [if_neg h0] at h
  rcases hscout : env.scout with e | sr
  · rw [hscout] at h
    exact absurd h (by simp [failOutput])
  rw [hscout] at h
  simp only [] at h
  by_cases hz : sr.trials.length = 0
  · rw [if_pos hz] at h
    simp only [Except.ok.injEq] at h
    have htr : sr.trials = [] := List.eq_nil_of_length_eq_zero hz
    have hsurv : survivingTrials env mt = [] := by
      rw [survivingTrials, processedTrials, hscout]
      simp [htr]
    have hdm : discoveryMatches env profile mt = [] := by
      rw [discoveryMatches, hsurv]
      simp
    rw [← h]
    refine ⟨by simp [hdm, sortByScoreDesc], Or.inl (by simp [hsurv])⟩
  rw [if_neg hz] at h
  by_cases h1 : env.abort 1 = true
  · rw [if_pos h1] at h
    exact absurd h (by simp [failOutput])
  rw [if_neg h1] at h
  have hproc : processedTrials env mt = sr.trials.take mt := by
    rw [processedTrials, hscout]
  have hsurv : survivingTrials env mt =
      (sr.trials.take mt).filter (fun t => (env.extract t.nctId).isOk) := by
    rw [survivingTrials, hproc]
  rcases hE : chunkLoop env.abort c (fun t => env.extract t.nctId)
      (fun t _ => "Extracted criteria for " ++ t.nctId)
      (fun t e => "Failed to extract criteria for " ++ t.nctId ++ ": " ++ e)
      .extractor (sr.trials.take mt).length (sr.trials.take mt) 0 2 with
    ⟨esucc, elg, eev, ectr⟩ | ⟨elg, eev⟩
  swap
  · rw [hE] at h
    exact absurd h (by simp [failOutput])
  rw [hE] at h
  simp only at h
  by_cases htwc :
      ((sr.trials.take mt).filter (fun t => (env.extract t.nctId).isOk)).length = 0
  · rw [if_pos htwc] at h
    simp only [Except.ok.injEq] at h
    have hsnil : survivingTrials env mt = [] := by
      rw [hsurv]
      exact List.eq_nil_of_length_eq_zero htwc
    have hdm : discoveryMatches env profile mt = [] := by
      rw [discoveryMatches, hsnil]
      simp
    rw [← h]
    exact ⟨by simp [hdm, sortByScoreDesc], Or.inr ⟨by simp [hproc], hsnil⟩⟩
  rw [if_neg htwc] at h
  by_cases hc1 : env.abort ectr = true
  · rw [if_pos hc1] at h
    exact absurd h (by simp [failOutput])
  rw [if_neg hc1] at h
  rcases hM : chunkLoop env.abort c (matchOp env profile)
      (fun t r => "Matched " ++ t.nctId ++ ": " ++ categoryLabel r.category ++
        " (" ++ toString r.score ++ ")")
      (fun t e => "Failed to match " ++ t.nctId ++ ": " ++ e)
      .matcher
      ((sr.trials.take mt).filter (fun t => (env.extract t.nctId).isOk)).length
      ((sr.trials.take mt).filter (fun t => (env.extract t.nctId).isOk)) 0
      (ectr + 1) with
    ⟨msucc, mlg, mev, mctr⟩ | ⟨mlg, mev⟩
  swap
  · rw [hM] at h
    exact absurd h (by simp [failOutput])
  rw [hM] at h
  simp only at h
  by_cases hc2 : env.abort mctr = true
  · rw [if_pos hc2] at h
    exact absurd h (by simp [failOutput])
  rw [if_neg hc2] at h
  simp only [Except.ok.injEq] at h
  have hmsucc : msucc =
      ((sr.trials.take mt).filter (fun t => (env.extract t.nctId).isOk)).filterMap
        (fun t => (matchOp env profile t).toOption) :=
    chunkLoop_done_succ env.abort c (matchOp env profile) _ _ .matcher _
      _ _ (Nat.le_refl _) _ _ msucc mlg mev mctr hM
  have hdm : discoveryMatches env profile mt =
      ((sr.trials.take mt).filter (fun t => (env.extract t.nctId).isOk)).filterMap
        (fun t => (matchOp env profile t).toOption) := by
    rw [discoveryMatches, hsurv]
  rw [← h]
  exact ⟨by rw [hdm, ← hmsucc], Or.inl (by rw [hsurv])⟩

/-! ## Lemmas about the retry helpers -/

/-- Every completed orchestrator-level retry loop made at least one attempt. -/
theorem orchRetryGo_pos (fn : Nat → Except String α) :
    ∀ (rest attempt : Nat), 1 ≤ (orchRetryGo fn attempt rest).2 := by
  intro rest
  induction rest with
  | zero =>
    intro attempt
    rw [orchRetryGo]
    rcases fn attempt <;> simp
  | succ n _ =>
    intro attempt
    rw [orchRetryGo]
    rcases fn attempt <;> simp

/-- The agent-level retry loop never makes more than `maxRetries` attempts. -/
theorem agentRetryGo_le (fn : Nat → Except String α) (m : Nat) :
    ∀ (fuel a : Nat), m - a ≤ fuel → a ≤ m → (agentRetryGo fn m a).2 ≤ m := by
  intro fuel
  induction fuel with
  | zero =>
    intro a hfuel ham
    rw [agentRetryGo, dif_neg (by omega : ¬a < m)]
    exact ham
  | succ n ih =>
    intro a hfuel ham
    rw [agentRetryGo]
    by_cases hlt : a < m
    · rw [dif_pos hlt]
      rcases hfn : fn a with e | v
      · simp only []
        by_cases hstop : isRetryable e = false ∨ a = m - 1
        · rw [if_pos hstop]
          exact hlt
        · rw [if_neg hstop]
          exact ih (a + 1) (by omega) (by omega)
      · exact hlt
    · rw [dif_neg hlt]
      exact ham

/-- If the agent-level retry loop used up every allowed attempt, every
attempt before the final one failed with a retryable error. -/
theorem agentRetryGo_maxed (fn : Nat → Except String α) (m : Nat) :
    ∀ (fuel a : Nat), m - a ≤ fuel → (agentRetryGo fn m a).2 = m →
      ∀ i, a ≤ i → i + 1 < m → ∃ e, fn i = .error e ∧ isRetryable e = true := by
  intro fuel
  induction fuel with
  | zero =>
    intro a hfuel hmax i hai him
    rw [agentRetryGo, dif_neg (by omega : ¬a < m)] at hmax
    have ham : a = m := hmax
    exact absurd him (by omega)
  | succ n ih =>
    intro a hfuel hmax i hai him
    by_cases hlt : a < m
    · rw [agentRetryGo, dif_pos hlt] at hmax
      rcases hfn : fn a with e | v
      · rw [hfn] at hmax
        simp only [] at hmax
        by_cases hstop : isRetryable e = false ∨ a = m - 1
        · rw [if_pos hstop] at hmax
          have ham : a + 1 = m := hmax
          exact absurd him (by omega)
        · rw [if_neg hstop] at hmax
          push_neg at hstop
          rcases Nat.eq_or_lt_of_le hai with rfl | hlt2
          · exact ⟨e, hfn, by simpa using hstop.1⟩
          · exact ih (a + 1) (by omega) hmax i (by omega) him
      · rw [hfn] at hmax
        have ham : a + 1 = m := hmax
        exact absurd him (by omega)
    · rw [agentRetryGo, dif_neg hlt] at hmax
      have ham : a = m := hmax
      exact absurd him (by omega)

/-- The agent-level retry loop skips over a block of retryable failures. -/
theorem agentRetryGo_skip (fn : Nat → Except String α) (m : Nat) :
    ∀ (fuel a k : Nat), k - a ≤ fuel → a ≤ k → k < m →
      (∀ i, a ≤ i → i < k → ∃ e, fn i = .error e ∧ isRetryable e = true) →
      agentRetryGo fn m a = agentRetryGo fn m k := by
  intro fuel
  induction fuel with
  | zero =>
    intro a k hfuel hak _ _
    have : a = k := by omega
    rw [this]
  | succ n ih =>
    intro a k hfuel hak hkm hretry
    rcases Nat.eq_or_lt_of_le hak with rfl | hlt
    · rfl
    · obtain ⟨e, hfn, hre⟩ := hretry a (Nat.le_refl a) hlt
      have hstep : agentRetryGo fn m a = agentRetryGo fn m (a + 1) := by
        rw [agentRetryGo, dif_pos (show a < m by omega), hfn]
        simp only []
        rw [if_neg (show ¬(isRetryable e = false ∨ a = m - 1) by
          push_neg
          exact ⟨by simp [hre], by omega⟩)]
      rw [hstep]
      exact ih (a + 1) k (by omega) (by omega) hkm
        (fun i hi hik => hretry i (by omega) hik)

/-- A fatal error at attempt `k` (after `k` retryable failures) is propagated
with exactly `k + 1` attempts made. -/
theorem withRetryAgent_fatal (fn : Nat → Except String α) (m k : Nat)
    (e : String) (hkm : k < m) (hfn : fn k = .error e)
    (hfatal : isRetryable e = false)
    (hbefore : ∀ i, i < k → ∃ e', fn i = .error e' ∧ isRetryable e' = true) :
    withRetryAgent fn m = (.error e, k + 1) := by
  rw [withRetryAgent,
    agentRetryGo_skip fn m k 0 k (Nat.le_refl k) (Nat.zero_le k) hkm
      (fun i _ hik => hbefore i hik),
    agentRetryGo, dif_pos hkm, hfn]
  simp only []
  rw [if_pos (Or.inl hfatal)]

/-- Helper: the stage-exhaustion path — Discovery finds candidates, every
extraction fails, no cancellation. -/
theorem runPipeline_all_extract_fail (env : PipelineEnv)
    (profile : PatientProfile) (mt c : Nat) (hab : ∀ k, env.abort k = false)
    (sr : TrialDiscoveryOutput) (hs : env.scout = .ok sr)
    (hne : sr.trials.length ≠ 0)
    (hfail : ∀ t ∈ sr.trials.take mt, (env.extract t.nctId).isOk = false) :
    (runPipeline env profile mt c).outcome = .ok
      { trials := sr.trials.take mt, matchResults := [], voiceScript := none,
        completedSteps :=
          [createStep .scout .complete none none,
           createStep .extractor .complete none none,
           createStep .matcher .error none (some "No criteria extracted")] } := by
  have hfilter :
      (sr.trials.take mt).filter (fun t => (env.extract t.nctId).isOk) = [] := by
    rw [List.filter_eq_nil_iff]
    intro t ht
    simp [hfail t ht]
  obtain ⟨lg₁, ev₁, ctr₁, hloop₁⟩ :=
    chunkLoop_no_abort env.abort hab c (fun t => env.extract t.nctId)
      (fun t _ => "Extracted criteria for " ++ t.nctId)
      (fun t e => "Failed to extract criteria for " ++ t.nctId ++ ": " ++ e)
      .extractor (sr.trials.take mt).length (sr.trials.take mt).length
      (sr.trials.take mt) (Nat.le_refl _) 0 2
  rw [runPipeline, hab 0]
  simp only [Bool.false_eq_true, if_false, hs]
  simp only [if_neg hne, hab 1, Bool.false_eq_true, if_false, hloop₁, hfilter]
  simp

/-- C3: when Discovery succeeds with zero candidates, the run returns (does
not throw) a result with no candidates, no outcomes, no voice script, and
all four stages marked complete. -/
theorem zero_candidates_short_circuit (env : PipelineEnv)
    (profile : PatientProfile) (mt c : Nat) (h0 : env.abort 0 = false)
    (n : Nat) (hs : env.scout = .ok { trials := [], totalFound := n }) :
    (runPipeline env profile mt c).outcome = .ok
      { trials := [], matchResults := [], voiceScript := none,
        completedSteps :=
          [createStep .scout .complete none none,
           createStep .extractor .complete none none,
           createStep .matcher .complete none none,
           createStep .advocate .complete none none] } := by
  rw [runPipeline, h0, hs]
  simp

/-- C3 witness: the concrete zero-candidate environment takes the
short-circuit path. -/
theorem zero_candidates_short_circuit_witness :
    (runPipeline cEnv3 cProfile 5 3).outcome = .ok
      { trials := [], matchResults := [], voiceScript := none,
        completedSteps :=
          [createStep .scout .complete none none,
           createStep .extractor .complete none none,
           createStep .matcher .complete none none,
           createStep .advocate .complete none none] } :=
  zero_candidates_short_circuit cEnv3 cProfile 5 3 rfl 0 rfl

/-- C4 (amended): when the cancellation signal is first observed at the
`checkAbort` between Discovery and Extraction's first chunk, the run throws
the distinguished message `'Pipeline cancelled by user'`; Matching and
Summarization receive no status at all, but Extraction has already been
reported `running` via the progress callback, and the error handler appends
an Extraction step with status `error` (not `pending`) carrying the
cancellation message; no stage is marked `complete` after the observation. -/
theorem cancellation_before_extraction (env : PipelineEnv)
    (profile : PatientProfile) (mt c : Nat)
    (h0 : env.abort 0 = false) (h1 : env.abort 1 = true)
    (sr : TrialDiscoveryOutput) (hs : env.scout = .ok sr)
    (hne : sr.trials.length ≠ 0) :
    (runPipeline env profile mt c).outcome = .error cancelMsg ∧
    (runPipeline env profile mt c).finalSteps =
      [createStep .scout .complete none none,
       createStep .extractor .error none (some cancelMsg)] ∧
    (runPipeline env profile mt c).events =
      [createStep .scout .running none none,
       createStep .scout .complete none none,
       createStep .extractor .running (some 0) none] := by
  rw [runPipeline, h0, hs]
  simp [hne, h1, failOutput, catchSteps, stepIdAt]

/-- C4 counterexample: on the concrete aborted run the orchestrator does
not leave Extraction `pending` — the step list carries an Extraction step
marked `error` after the cancellation was observed, and Extraction had been
reported `running`. -/
theorem cancellation_before_extraction_cex :
    (runPipeline cEnv4 cProfile 5 3).outcome = .error cancelMsg ∧
    createStep .extractor .error none (some cancelMsg) ∈
      (runPipeline cEnv4 cProfile 5 3).finalSteps ∧
    createStep .extractor .running (some 0) none ∈
      (runPipeline cEnv4 cProfile 5 3).events :=
  ⟨rfl, by decide, by decide⟩

/-- C4 witness: the amended statement instantiated on the concrete aborted
run. -/
theorem cancellation_before_extraction_witness :
    (runPipeline cEnv4 cProfile 5 3).outcome = .error cancelMsg ∧
    (runPipeline cEnv4 cProfile 5 3).finalSteps =
      [createStep .scout .complete none none,
       createStep .extractor .error none (some cancelMsg)] ∧
    (runPipeline cEnv4 cProfile 5 3).events =
      [createStep .scout .running none none,
       createStep .scout .complete none none,
       createStep .extractor .running (some 0) none] :=
  cancellation_before_extraction cEnv4 cProfile 5 3 rfl rfl _ rfl (by decide)

/-- C5: when Discovery yields candidates but every extraction fails, the run
returns (does not throw) the truncated raw candidate list, an empty outcome
list, and a step list whose Matching stage is an `error` with the message
`'No criteria extracted'`. -/
theorem stage_exhaustion_returns_partial (env : PipelineEnv)
    (profile : PatientProfile) (mt c : Nat) (hab : ∀ k, env.abort k = false)
    (sr : TrialDiscoveryOutput) (hs : env.scout = .ok sr)
    (hne : sr.trials.length ≠ 0)
    (hfail : ∀ t ∈ sr.trials.take mt, (env.extract t.nctId).isOk = false) :
    (runPipeline env profile mt c).outcome = .ok
      { trials := sr.trials.take mt, matchResults := [], voiceScript := none,
        completedSteps :=
          [createStep .scout .complete none none,
           createStep .extractor .complete none none,
           createStep .matcher .error none (some "No criteria extracted")] } :=
  runPipeline_all_extract_fail env profile mt c hab sr hs hne hfail

/-- C5 witness: the concrete all-extractions-fail environment returns the
partial result. -/
theorem stage_exhaustion_returns_partial_witness :
    (runPipeline cEnv5 cProfile 5 3).outcome = .ok
      { trials := [mkTrial "NCT00000001", mkTrial "NCT00000002"],
        matchResults := [], voiceScript := none,
        completedSteps :=
          [createStep .scout .complete none none,
           createStep .extractor .complete none none,
           createStep .matcher .error none (some "No criteria extracted")] } :=
  stage_exhaustion_returns_partial cEnv5 cProfile 5 3 (fun _ => rfl) _ rfl
    (by decide) (by decide)

/-- C1 (amended): in every returned run, assuming the matcher adapter
reports outcomes under the queried candidate identifier, every match
outcome's identifier corresponds to a trial in the returned list and to a
candidate whose extraction succeeded (failed candidates never reach
Matching); and the returned trial list contains a failed-extraction
candidate only on the stage-exhaustion path, where no candidate survived
and the raw truncated list is returned. -/
theorem match_results_correspond (env : PipelineEnv)
    (profile : PatientProfile) (mt c : Nat)
    (hm : ∀ p id cr r, env.matcher p id cr = .ok r → r.nctId = id)
    (res : PipelineResult)
    (h : (runPipeline env profile mt c).outcome = .ok res) :
    (∀ m ∈ res.matchResults, (env.extract m.nctId).isOk = true ∧
      ∃ t ∈ res.trials, m.nctId = t.nctId) ∧
    ((∃ t ∈ res.trials, (env.extract t.nctId).isOk = true) →
      ∀ t ∈ res.trials, (env.extract t.nctId).isOk = true) := by
  obtain ⟨hmr, htr⟩ := runPipeline_ok_inv env profile mt c res h
  constructor
  · intro m hmem
    rw [hmr] at hmem
    have hdm : m ∈ discoveryMatches env profile mt := mem_sortByScoreDesc.mp hmem
    rw [discoveryMatches] at hdm
    obtain ⟨t, ht, hop⟩ := List.mem_filterMap.mp hdm
    have hok : matchOp env profile t = .ok m := by
      rcases hmo : matchOp env profile t with e | v
      · rw [hmo] at hop
        simp [Except.toOption] at hop
      · rw [hmo] at hop
        simp only [Except.toOption, Option.some.injEq] at hop
        rw [hop]
    rw [matchOp] at hok
    have hid : m.nctId = t.nctId := hm profile t.nctId (criteriaOf env t) m hok
    have hok2 : (env.extract t.nctId).isOk = true :=
      (List.mem_filter.mp ht).2
    refine ⟨by rw [hid]; exact hok2, ?_⟩
    rcases htr with htr | ⟨_, hnil⟩
    · exact ⟨t, by rw [htr]; exact ht, hid⟩
    · rw [hnil] at ht
      exact absurd ht (List.not_mem_nil t)
  · rintro ⟨t0, ht0, hok0⟩ t ht
    rcases htr with htr | ⟨htr, hnil⟩
    · rw [htr, survivingTrials] at ht
      exact (List.mem_filter.mp ht).2
    · rw [htr] at ht0
      have ht0s : t0 ∈ survivingTrials env mt := by
        rw [survivingTrials]
        exact List.mem_filter.mpr ⟨ht0, hok0⟩
      rw [hnil] at ht0s
      exact absurd ht0s (List.not_mem_nil t0)

/-- C1 counterexample: on the stage-exhaustion path a candidate whose
extraction failed is present in the returned trial list, so the claimed
absence from the trial list is false as stated. -/
theorem match_results_correspond_cex :
    (cEnv1x.extract "NCT00000001").isOk = false ∧
    (runPipeline cEnv1x cProfile 5 3).outcome = .ok
      { trials := [mkTrial "NCT00000001"], matchResults := [],
        voiceScript := none,
        completedSteps :=
          [createStep .scout .complete none none,
           createStep .extractor .complete none none,
           createStep .matcher .error none (some "No criteria extracted")] } ∧
    mkTrial "NCT00000001" ∈ [mkTrial "NCT00000001"] :=
  ⟨rfl,
   runPipeline_all_extract_fail cEnv1x cProfile 5 3 (fun _ => rfl) _ rfl
     (by decide) (by decide),
   by decide⟩

/-- C1 witness: the amended statement on a concrete two-candidate run with
one extraction failure. -/
theorem match_results_correspond_witness :
    (runPipeline cEnv1 cProfile 5 3).outcome = .ok cRes1 ∧
    ((∀ m ∈ cRes1.matchResults, (cEnv1.extract m.nctId).isOk = true ∧
        ∃ t ∈ cRes1.trials, m.nctId = t.nctId) ∧
      ((∃ t ∈ cRes1.trials, (cEnv1.extract t.nctId).isOk = true) →
        ∀ t ∈ cRes1.trials, (cEnv1.extract t.nctId).isOk = true)) :=
  have hout : (runPipeline cEnv1 cProfile 5 3).outcome = .ok cRes1 :=
    (runPipeline_normal cEnv1 cProfile 5 3 (fun _ => rfl) _ rfl (by decide)
      (by decide)).1
  ⟨hout,
   match_results_correspond cEnv1 cProfile 5 3
     (fun _ _ _ r hr => by cases hr; rfl) cRes1 hout⟩

/-- C6: if the run reaches Summarization and the adapter throws, the run
still returns, with the computed outcomes, the Summarization stage marked
complete, no voice script, and the failure reason recorded in the log. -/
theorem summarization_failure_non_critical (env : PipelineEnv)
    (profile : PatientProfile) (mt c : Nat) (hab : ∀ k, env.abort k = false)
    (sr : TrialDiscoveryOutput) (hs : env.scout = .ok sr)
    (hne : sr.trials.length ≠ 0) (htwc : (survivingTrials env mt).length ≠ 0)
    (e : String)
    (hadv : env.advocate profile
      (sortByScoreDesc (discoveryMatches env profile mt)) = .error e) :
    (runPipeline env profile mt c).outcome = .ok
      { trials := survivingTrials env mt,
        matchResults := sortByScoreDesc (discoveryMatches env profile mt),
        voiceScript := none,
        completedSteps :=
          [createStep .scout .complete none none,
           createStep .extractor .complete none none,
           createStep .matcher .complete none none,
           createStep .advocate .complete none none] } ∧
    ("Voice summary failed: " ++ e) ∈ (runPipeline env profile mt c).log := by
  obtain ⟨h1, h2⟩ := runPipeline_normal env profile mt c hab sr hs hne htwc
  refine ⟨?_, ?_⟩
  · rw [h1, hadv]
    rfl
  · rw [advocateLogMsg, hadv] at h2
    exact h2

/-- C6 witness: the concrete run with a throwing Summarization adapter. -/
theorem summarization_failure_non_critical_witness :
    (runPipeline cEnv6 cProfile 5 3).outcome = .ok
      { trials := survivingTrials cEnv6 5,
        matchResults := sortByScoreDesc (discoveryMatches cEnv6 cProfile 5),
        voiceScript := none,
        completedSteps :=
          [createStep .scout .complete none none,
           createStep .extractor .complete none none,
           createStep .matcher .complete none none,
           createStep .advocate .complete none none] } ∧
    ("Voice summary failed: " ++ "synthesis failed") ∈
      (runPipeline cEnv6 cProfile 5 3).log :=
  summarization_failure_non_critical cEnv6 cProfile 5 3 (fun _ => rfl) _ rfl
    (by decide) (by decide) "synthesis failed" rfl

/-- C7: in every returned run the outcome list is sorted by score
descending, and for each score value the outcomes carrying it appear
verbatim in their Discovery order (stable ties). -/
theorem outcomes_sorted_stable (env : PipelineEnv) (profile : PatientProfile)
    (mt c : Nat) (res : PipelineResult)
    (h : (runPipeline env profile mt c).outcome = .ok res) :
    res.matchResults.Sorted (fun a b => b.score ≤ a.score) ∧
    ∀ s : Nat, res.matchResults.filter (fun r => r.score == s) =
      (discoveryMatches env profile mt).filter (fun r => r.score == s) := by
  obtain ⟨hmr, _⟩ := runPipeline_ok_inv env profile mt c res h
  rw [hmr]
  exact ⟨sortByScoreDesc_sorted _, fun s => filter_sortByScoreDesc _ s⟩

/-- C7 witness: the concrete run with scores 50, 80, 50. -/
theorem outcomes_sorted_stable_witness :
    (runPipeline cEnv7 cProfile 5 3).outcome = .ok cRes7 ∧
    (cRes7.matchResults.Sorted (fun a b => b.score ≤ a.score) ∧
      ∀ s : Nat, cRes7.matchResults.filter (fun r => r.score == s) =
        (discoveryMatches cEnv7 cProfile 5).filter (fun r => r.score == s)) :=
  have hout : (runPipeline cEnv7 cProfile 5 3).outcome = .ok cRes7 :=
    (runPipeline_normal cEnv7 cProfile 5 3 (fun _ => rfl) _ rfl (by decide)
      (by decide)).1
  ⟨hout, outcomes_sorted_stable cEnv7 cProfile 5 3 cRes7 hout⟩

/-- C2 (amended): for the agent-layer `withRetry` (`src/unnamed/part_001`)
with policy `maxAttempts = maxRetries`: the operation is attempted at most
`maxAttempts` times; the attempt count equals `maxAttempts` only if every
attempt except possibly the final one raised a retryable (rate-limit or
timeout) error; and after a fatal error the last error is propagated
immediately with no further attempt.  The orchestrator-layer `withRetry`
(`src/lib/orchestrator.ts`) classifies nothing: a fatal first error is
still retried (at least a second attempt is made whenever `maxRetries ≥ 1`). -/
theorem retry_executor_contract {α : Type} (fn : Nat → Except String α)
    (m : Nat) :
    (withRetryAgent fn m).2 ≤ m ∧
    ((withRetryAgent fn m).2 = m →
      ∀ i, i + 1 < m → ∃ e, fn i = .error e ∧ isRetryable e = true) ∧
    (∀ k e, k < m → fn k = .error e → isRetryable e = false →
      (∀ i, i < k → ∃ e', fn i = .error e' ∧ isRetryable e' = true) →
      withRetryAgent fn m = (.error e, k + 1)) ∧
    (∀ e, fn 0 = .error e → 1 ≤ m → 2 ≤ (withRetryOrch fn m).2) := by
  refine ⟨?_, ?_, ?_, ?_⟩
  · exact agentRetryGo_le fn m m 0 (by omega) (Nat.zero_le m)
  · intro hmax i him
    exact agentRetryGo_maxed fn m m 0 (by omega) hmax i (Nat.zero_le i) him
  · intro k e hkm hfn hfatal hbefore
    exact withRetryAgent_fatal fn m k e hkm hfn hfatal hbefore
  · intro e hfn hm
    obtain ⟨rest, rfl⟩ : ∃ rest, m = rest + 1 := ⟨m - 1, by omega⟩
    rw [withRetryOrch, orchRetryGo, hfn]
    simp only [Nat.zero_add]
    have := orchRetryGo_pos fn rest 1
    omega

/-- C2 counterexample: the orchestrator-layer `withRetry` retries a fatal
(non-retryable) error instead of propagating it immediately — with
`maxRetries = 2` a permanently failing fatal operation is attempted three
times. -/
theorem retry_executor_contract_cex :
    isRetryable "boom" = false ∧
    withRetryOrch (fun _ => (Except.error "boom" : Except String Nat)) 2 =
      (.error "boom", 3) :=
  ⟨by decide, rfl⟩

/-- C2 witness: a timeout at attempt 0 followed by a fatal error at attempt
1 makes the agent-layer `withRetry` stop after exactly two of three allowed
attempts, propagating the fatal error. -/
theorem retry_executor_contract_witness :
    (withRetryAgent wfn 3).2 ≤ 3 ∧
    withRetryAgent wfn 3 = (.error "schema mismatch", 2) := by
  have h := retry_executor_contract wfn 3
  refine ⟨h.1, ?_⟩
  refine h.2.2.1 1 "schema mismatch" (by omega) rfl (by decide) ?_
  intro i hi
  have hi0 : i = 0 := by omega
  subst hi0
  exact ⟨"timeout while connecting", rfl, by decide⟩

/-- Helper: the progress fold computes the spec's per-stage weighted sum. -/
theorem progress_foldl_eq (l : List PipelineStep) :
    ∀ acc : ℚ,
      (l.foldl
        (fun acc step =>
          if step.status = .complete then acc + stageWeight step.id
          else
            match step.status, step.progress with
            | .running, some p => acc + (stageWeight step.id * p : ℚ) / 100
            | _, _ => acc) acc : ℚ) = acc + specOverallProgress l := by
  induction l with
  | nil =>
    intro acc
    simp [specOverallProgress]
  | cons s ss ih =>
    intro acc
    rw [List.foldl_cons, ih]
    rcases hstat : s.status <;> rcases hprog : s.progress with _ | p <;>
      simp [hstat, hprog, specOverallProgress] <;> ring

/-- C8 (amended): the overall progress percentage is the spec's weighted
sum rounded to the nearest integer (halves rounding up), rather than the
exact sum. -/
theorem overall_progress_rounds_spec_sum (steps : List PipelineStep) :
    calculateOverallProgress steps = ⌊specOverallProgress steps + 1 / 2⌋ := by
  rw [calculateOverallProgress]
  rw [progress_foldl_eq steps 0]
  norm_num

/-- C8 counterexample: with Discovery complete and Extraction running at
50%, the function returns 33 while the spec's exact weighted sum is 32.5 —
the claimed equality fails on this list of the four stage states. -/
theorem overall_progress_cex :
    calculateOverallProgress c8steps = 33 ∧
    specOverallProgress c8steps = 65 / 2 ∧
    (calculateOverallProgress c8steps : ℚ) ≠ specOverallProgress c8steps := by
  have h1 : specOverallProgress c8steps = 65 / 2 := by
    simp [specOverallProgress, c8steps, createStep, stageWeight]
    norm_num
  have h2 : calculateOverallProgress c8steps = 33 := by
    rw [calculateOverallProgress]
    rw [progress_foldl_eq c8steps 0, h1]
    norm_num
  exact ⟨h2, h1, by rw [h1, h2]; norm_num⟩

/-- C9: whenever the evaluation produces one or more blocking factors (an
exclusion criterion matched against the profile), the matcher's outcome has
category `not_eligible` and score `max(0, 20 − 10 × blockingFactorCount)`,
no matter which inclusion criteria match. -/
theorem blocking_caps_outcome (profile : PatientProfile)
    (criteria : EligibilityCriteria) (nctId : String)
    (h : matchBlockers profile criteria ≠ []) :
    (matchWithRules profile criteria nctId).category = .not_eligible ∧
    (matchWithRules profile criteria nctId).blockingFactors =
      matchBlockers profile criteria ∧
    (matchWithRules profile criteria nctId).score =
      (max 0 (20 - 10 * ((matchBlockers profile criteria).length : ℤ))).toNat := by
  have hpos : 0 < (matchBlockers profile criteria).length :=
    List.length_pos.mpr h
  rw [matchWithRules, calculateScore, if_pos hpos]
  refine ⟨rfl, rfl, ?_⟩
  rw [Int.mul_comm]

/-- C9 witness: a profile carrying an `EGFR mutation` biomarker against a
criteria set with a matching biomarker exclusion and matching diagnosis,
treatment and ECOG factors is capped at `not_eligible` with score
`max(0, 20 − 10·1) = 10`. -/
theorem blocking_caps_outcome_witness :
    matchBlockers cProfile cCriteria9 ≠ [] ∧
    ((matchWithRules cProfile cCriteria9 "NCT11112222").category =
        .not_eligible ∧
      (matchWithRules cProfile cCriteria9 "NCT11112222").blockingFactors =
        matchBlockers cProfile cCriteria9 ∧
      (matchWithRules cProfile cCriteria9 "NCT11112222").score =
        (max 0
          (20 - 10 * ((matchBlockers cProfile cCriteria9).length : ℤ))).toNat) :=
  ⟨by decide,
   blocking_caps_outcome cProfile cCriteria9 "NCT11112222" (by decide)⟩

/-- The required disclaimer splits around the phrase the code checks for. -/
theorem disclaimer_decomp :
    REQUIRED_DISCLAIMER =
      "This information is for " ++ "educational purposes only" ++
        " and should not replace professional medical advice. Please discuss these options with your healthcare provider before making any decisions about clinical trial participation." := by
  rfl

/-- Every generated script template ends with the required disclaimer. -/
theorem generateScript_decomp (results : List MatchResult) (language : String) :
    ∃ p, generateScriptFromTemplate results language =
      p ++ REQUIRED_DISCLAIMER := by
  rw [generateScriptFromTemplate]
  by_cases h1 :
      (results.filter (fun m => m.category = .strong_match)).length ≠ 0
  · rw [if_pos h1, getStrongMatchTemplate]
    exact ⟨_, rfl⟩
  · rw [if_neg h1]
    by_cases h2 :
        (results.filter (fun m => m.category = .possible_match)).length ≠ 0
    · rw [if_pos h2, getPossibleMatchTemplate]
      exact ⟨_, rfl⟩
    · rw [if_neg h2, getNoStrongMatchTemplate]
      exact ⟨_, rfl⟩

/-- The script text assembled by `runAdvocateAgent` (template plus the
ensure-disclaimer fallback) ends with the required disclaimer either way. -/
theorem scriptText_decomp (results : List MatchResult) (language : String) :
    ∃ p,
      (if strIncludes (generateScriptFromTemplate results language)
          "educational purposes only" then
        generateScriptFromTemplate results language
      else
        generateScriptFromTemplate results language ++ "\n\n" ++
          REQUIRED_DISCLAIMER) = p ++ REQUIRED_DISCLAIMER := by
  by_cases hinc : strIncludes (generateScriptFromTemplate results language)
      "educational purposes only" = true
  · rw [if_pos hinc]
    exact generateScript_decomp results language
  · rw [if_neg hinc]
    exact ⟨generateScriptFromTemplate results language ++ "\n\n", rfl⟩

/-- C10: the voice script returned by `runAdvocateAgent` always contains
the required medical disclaimer — in particular the phrase
`'educational purposes only'` — whichever template was chosen and whether
or not audio synthesis succeeded. -/
theorem advocate_disclaimer_present (results : List MatchResult)
    (language : String) (audio : Except String (String × Nat)) :
    (∃ p q, (runAdvocateAgent results language audio).text =
      p ++ REQUIRED_DISCLAIMER ++ q) ∧
    (∃ p q, (runAdvocateAgent results language audio).text =
      p ++ "educational purposes only" ++ q) := by
  obtain ⟨p, hp⟩ := scriptText_decomp results language
  have htext : (runAdvocateAgent results language audio).text =
      p ++ REQUIRED_DISCLAIMER := by
    simp only [runAdvocateAgent, SKIP_AUDIO_SYNTHESIS, Bool.false_eq_true,
      if_false]
    rcases audio with e | ⟨url, dur⟩
    · exact hp
    · exact hp
  constructor
  · exact ⟨p, "", by rw [htext, String.append_empty]⟩
  · refine ⟨p ++ "This information is for ",
      " and should not replace professional medical advice. Please discuss these options with your healthcare provider before making any decisions about clinical trial participation.", ?_⟩
    rw [htext, disclaimer_decomp]
    simp [String.append_assoc]

end ClinicalMatchMaker
